import Mathlib

/-!
Shallow embedding of the mock MySQL server builder from `src/mysql/builder.go`
(package `mysql` of dennis2006/mtest), together with proofs about its
configuration and build pipeline.

External effects (the OS free-port probe, the embedded server library, the SQL
client, file reads and statement execution) are modelled by an explicit
environment `Env`; `Build` returns the updated builder, an outcome, and the
list of effects it performed, in order.
-/

namespace Mtest

/-- The embedded server handle (`*server.Server`). The server is configured to
bind `127.0.0.1:<port>`; `port` stands both for the configured port and for
`server.Listener.Addr().Port`, which coincide for a fixed nonzero port. -/
structure Server where
  port : Int
  deriving DecidableEq

/-- The external world as seen by one builder run: results of `os.Stat`
(`fileExists f` is true when stat does not report non-existence), of
`getFreePort`, of the server library constructor and of `server.Start`, of
`createMySQLClient`, of reading a registered file, and of executing a single
SQL statement (`none` meaning success). -/
structure Env where
  fileExists : String → Bool
  freePort : Except String Int
  createServerErr : Option String
  startErr : Option String
  clientErr : Option String
  fileContents : String → Except String String
  execErr : String → Option String

/-- One observable step performed by `Build`. -/
inductive Effect where
  | probePort
  | closeListener
  | initServer (dbName : String) (port : Int)
  | startServer
  | connectClient (port : Int) (dbName : String)
  | execStmt (stmt : String)
  deriving DecidableEq

/-- `MockBuilder` struct: db name, port, server handle, sticky error,
one-shot started flag, and the registered statement and file lists. The
`*sql.DB`/`*sqlx.DB` handles carry no state the properties below mention and
are omitted. -/
structure MockBuilder where
  dbName : String
  port : Int
  server : Option Server
  err : Option String
  started : Bool
  sqlStmts : List String
  sqlFiles : List String
  deriving DecidableEq

/-- `Builder(db ...string)`: fresh builder; the random name suffix
(`uuid.NewString()[:6]`) is passed in as `uuidFrag`. -/
def Builder (db : List String) (uuidFrag : String) : MockBuilder :=
  { dbName := match db with
      | [] => "test-db-" ++ uuidFrag
      | d :: _ => d
    port := 0
    server := none
    err := none
    started := false
    sqlStmts := []
    sqlFiles := [] }

/-- `Port`: sets the port field. Note the Go code has no sticky-error guard
here. -/
def MockBuilder.Port (b : MockBuilder) (port : Int) : MockBuilder :=
  { b with port := port }

/-- `GetPort`: when `port = 0` the Go code dereferences `b.server`, which
panics on a `nil` server; the panic is modelled as `none`. -/
def MockBuilder.GetPort (b : MockBuilder) : Option Int :=
  if b.port = 0 then
    match b.server with
    | none => none
    | some s => some s.port
  else some b.port

/-- `SQLStmts`: appends the given statements. No sticky-error guard in the Go
code. -/
def MockBuilder.SQLStmts (b : MockBuilder) (stmts : List String) : MockBuilder :=
  { b with sqlStmts := b.sqlStmts ++ stmts }

/-- The loop of `SQLFiles`: the first file for which `os.Stat` reports
non-existence, if any. -/
def findMissing (ex : String → Bool) : List String → Option String
  | [] => none
  | f :: fs => if ex f then findMissing ex fs else some f

/-- `SQLFiles`: scans the batch for a missing file; on the first missing one it
sets the sticky error and returns without appending anything, otherwise it
appends the whole batch. -/
def MockBuilder.SQLFiles (env : Env) (b : MockBuilder) (files : List String) : MockBuilder :=
  match findMissing env.fileExists files with
  | some f => { b with err := some ("sql file " ++ f ++ " not exist") }
  | none => { b with sqlFiles := b.sqlFiles ++ files }

/-- ASCII whitespace, for trimming split pieces. -/
def isSpaceChar (c : Char) : Bool :=
  c = ' ' || c = '\t' || c = '\n' || c = '\r'

/-- Trim leading and trailing whitespace from a character list. -/
def trimChars (cs : List Char) : List Char :=
  ((cs.dropWhile isSpaceChar).reverse.dropWhile isSpaceChar).reverse

/-- Split a character list at every semicolon. -/
def splitSemiChars : List Char → List (List Char)
  | [] => [[]]
  | c :: cs =>
    match splitSemiChars cs with
    | [] => [[]]
    | g :: gs => if c = ';' then [] :: g :: gs else (c :: g) :: gs

/-- Modelled from the spec: the repository calls `splitSQLStatements` but its
definition is not under src/. Spec section 4.1 says splitting SQL text into
individual statements is a naive separator-based split, not a full SQL parser.
We split on the semicolon separator, trim whitespace and drop empty pieces. -/
def naiveSplit (s : String) : List String :=
  ((splitSemiChars s.data).map fun cs => String.mk (trimChars cs)).filter fun t => t ≠ ""

/-- Modelled from the spec: `splitSQLStatements` returns the naive split; the
Go signature also allows an error, which the naive split never produces. -/
def splitSQLStatements (s : String) : Except String (List String) :=
  Except.ok (naiveSplit s)

/-- Modelled from the spec: `splitSQLFile` reads the file (modelled by
`Env.fileContents`) and splits its contents into individual statements. -/
def splitSQLFile (env : Env) (file : String) : Except String (List String) :=
  match env.fileContents file with
  | Except.error e => Except.error e
  | Except.ok c => splitSQLStatements c

/-- `executeSQLStatements`: executes statements in order, stopping at the
first failure and wrapping its error with the offending statement text.
Returns the statements whose execution was attempted, in order, and the
error if any. -/
def executeSQLStatements (env : Env) : List String → List String × Option String
  | [] => ([], none)
  | stmt :: rest =>
    match env.execErr stmt with
    | some e => ([stmt], some ("failed to exec sql stmt '" ++ stmt ++ "': " ++ e))
    | none =>
      let r := executeSQLStatements env rest
      (stmt :: r.1, r.2)

/-- The loop of `initWithStmts`: split each registered literal, execute its
statements, stop at the first error. -/
def runStmts (env : Env) : List String → List String × Option String
  | [] => ([], none)
  | s :: rest =>
    match splitSQLStatements s with
    | Except.error e => ([], some e)
    | Except.ok stmts =>
      let r := executeSQLStatements env stmts
      match r.2 with
      | some e => (r.1, some e)
      | none =>
        let r2 := runStmts env rest
        (r.1 ++ r2.1, r2.2)

/-- `initWithStmts`: skipped when the sticky error is set or no literals are
registered; otherwise runs the literals and records a failure in the sticky
error. -/
def MockBuilder.initWithStmts (env : Env) (b : MockBuilder) : MockBuilder × List String :=
  if b.err ≠ none ∨ b.sqlStmts = [] then (b, [])
  else
    let r := runStmts env b.sqlStmts
    ({ b with err := r.2 }, r.1)

/-- The loop of `initWithFiles`: split each registered file (wrapping split
failures with the file name), execute its statements, stop at the first
error. -/
def runFiles (env : Env) : List String → List String × Option String
  | [] => ([], none)
  | f :: rest =>
    match splitSQLFile env f with
    | Except.error e => ([], some ("failed to split sql file '" ++ f ++ "': " ++ e))
    | Except.ok stmts =>
      let r := executeSQLStatements env stmts
      match r.2 with
      | some e => (r.1, some e)
      | none =>
        let r2 := runFiles env rest
        (r.1 ++ r2.1, r2.2)

/-- `initWithFiles`: skipped when the sticky error is set or no files are
registered; otherwise runs the files and records a failure in the sticky
error. -/
def MockBuilder.initWithFiles (env : Env) (b : MockBuilder) : MockBuilder × List String :=
  if b.err ≠ none ∨ b.sqlFiles = [] then (b, [])
  else
    let r := runFiles env b.sqlFiles
    ({ b with err := r.2 }, r.1)

/-- The seeding phase of `Build`: `initWithStmts` then `initWithFiles`,
returning the updated builder and all statements executed, in order. -/
def MockBuilder.seed (env : Env) (b : MockBuilder) : MockBuilder × List String :=
  let r1 := b.initWithStmts env
  let r2 := r1.1.initWithFiles env
  (r2.1, r1.2 ++ r2.2)

/-- `createMySQLServer` from `src/mysql/client.go`'s sibling: builds a server
configured to bind `127.0.0.1:<port>`; construction failure is wrapped. -/
def createMySQLServer (env : Env) (_dbName : String) (port : Int) : Except String Server :=
  match env.createServerErr with
  | some e => Except.error ("failed to create server: " ++ e)
  | none => Except.ok { port := port }

/-- `initServer`: guarded by the sticky error; assigns `b.server, b.err` from
`createMySQLServer`. -/
def MockBuilder.initServer (env : Env) (b : MockBuilder) : MockBuilder :=
  if b.err ≠ none then b
  else
    match createMySQLServer env b.dbName b.port with
    | Except.ok s => { b with server := some s }
    | Except.error e => { b with server := none, err := some e }

/-- `createMySQLClient` from `src/mysql/client.go`: connects and pings; only
its error is observable here. -/
def createMySQLClient (env : Env) (_port : Int) (_dbName : String) : Option String :=
  env.clientErr

/-- How a `Build` call ends: normal return with handles, normal return with an
error, or a process-fatal panic (`server.Start` failing inside the goroutine
`Build` launches; modelled as terminating the run at that point). -/
inductive BuildOutcome where
  | ok
  | err (e : String)
  | panicked (e : String)
  deriving DecidableEq

/-- The port-resolution step of `Build`: when no port was configured, probe
via `getFreePort` (not under src/, modelled by `Env.freePort`), record the
port, and close the probe listener. -/
def MockBuilder.resolvePort (env : Env) (b : MockBuilder) : MockBuilder × Option String × List Effect :=
  if b.port = 0 then
    match env.freePort with
    | Except.error e => ({ b with err := some e }, some e, [Effect.probePort])
    | Except.ok p => ({ b with port := p }, none, [Effect.probePort, Effect.closeListener])
  else (b, none, [])

/-- `Build`: sticky-error check, started compare-and-swap, port resolution,
server construction, asynchronous start (a start failure panics), client
connection, then seeding. Returns the final builder state, the outcome, and
the effects performed in order. -/
def MockBuilder.Build (env : Env) (b : MockBuilder) : MockBuilder × BuildOutcome × List Effect :=
  match b.err with
  | some e => (b, BuildOutcome.err e, [])
  | none =>
    if b.started then (b, BuildOutcome.err "mysql server already started", [])
    else
      let b1 : MockBuilder := { b with started := true }
      let rp := b1.resolvePort env
      match rp.2.1 with
      | some e => (rp.1, BuildOutcome.err e, rp.2.2)
      | none =>
        let b2 := rp.1
        let b3 := b2.initServer env
        let tr1 := rp.2.2 ++ [Effect.initServer b2.dbName b2.port]
        match b3.err with
        | some e => (b3, BuildOutcome.err e, tr1)
        | none =>
          match env.startErr with
          | some e => (b3, BuildOutcome.panicked e, tr1 ++ [Effect.startServer])
          | none =>
            match createMySQLClient env b3.port b3.dbName with
            | some e =>
              ({ b3 with err := some ("failed to create sql client: " ++ e) },
               BuildOutcome.err ("failed to create sql client: " ++ e),
               tr1 ++ [Effect.startServer, Effect.connectClient b3.port b3.dbName])
            | none =>
              let rs := b3.seed env
              (rs.1,
               match rs.1.err with
               | some e => BuildOutcome.err e
               | none => BuildOutcome.ok,
               tr1 ++ [Effect.startServer, Effect.connectClient b3.port b3.dbName]
                 ++ rs.2.map Effect.execStmt)

/-- The statements executed during a trace, in order. -/
def execTrace (tr : List Effect) : List String :=
  tr.filterMap (fun e =>
    match e with
    | Effect.execStmt s => some s
    | _ => none)

/-- Proof-layer restatement of what `Build` does once the sticky-error check,
the started check and port resolution have passed, with `p` the resolved port
and `tr0` the port-resolution effects. Proven equal to `Build` in
`Build_resolved` below; the proofs about `Build` go through that equation. -/
def afterPort (env : Env) (b : MockBuilder) (p : Int) (tr0 : List Effect) :
    MockBuilder × BuildOutcome × List Effect :=
  match env.createServerErr with
  | some e =>
    ({ b with
        started := true
        port := p
        server := none
        err := some ("failed to create server: " ++ e) },
     BuildOutcome.err ("failed to create server: " ++ e),
     tr0 ++ [Effect.initServer b.dbName p])
  | none =>
    let b3 : MockBuilder := { b with started := true, port := p, server := some { port := p } }
    match env.startErr with
    | some e =>
      (b3, BuildOutcome.panicked e, tr0 ++ [Effect.initServer b.dbName p, Effect.startServer])
    | none =>
      match env.clientErr with
      | some e =>
        ({ b3 with err := some ("failed to create sql client: " ++ e) },
         BuildOutcome.err ("failed to create sql client: " ++ e),
         tr0 ++ [Effect.initServer b.dbName p, Effect.startServer,
           Effect.connectClient p b.dbName])
      | none =>
        let rs := b3.seed env
        (rs.1,
         match rs.1.err with
         | some e => BuildOutcome.err e
         | none => BuildOutcome.ok,
         tr0 ++ [Effect.initServer b.dbName p, Effect.startServer,
           Effect.connectClient p b.dbName] ++ rs.2.map Effect.execStmt)

/-- An environment in which every external step succeeds: all files exist and
are empty, the probe finds port 19527, and every statement executes. Used to
instantiate theorems at concrete inputs. -/
def envBase : Env :=
  { fileExists := fun _ => true
    freePort := Except.ok 19527
    createServerErr := none
    startErr := none
    clientErr := none
    fileContents := fun _ => Except.ok ""
    execErr := fun _ => none }

/-- A builder with a pre-set sticky error, used as a concrete input. -/
def cexB : MockBuilder :=
  { dbName := "d"
    port := 0
    server := none
    err := some "boom"
    started := false
    sqlStmts := []
    sqlFiles := [] }

/-- A fresh concrete builder. -/
def bW : MockBuilder := Builder [] "w"

/-- The fresh builder with the started flag already set. -/
def startedB : MockBuilder := { bW with started := true }

/-- Environment in which no file exists. -/
def envNoFile : Env := { envBase with fileExists := fun _ => false }

/-- Environment whose client connection fails. -/
def envClientFail : Env := { envBase with clientErr := some "conn refused" }

/-- Environment whose asynchronous server start fails. -/
def envStartFail : Env := { envBase with startErr := some "crash" }

/-- Environment with concrete contents for two seed files. -/
def envFiles : Env :=
  { envBase with fileContents := fun f => if f = "f1" then Except.ok "A1;A2" else Except.ok "B1" }

/-- The file-contents function matching `envFiles`. -/
def contentsW : String → String := fun f => if f = "f1" then "A1;A2" else "B1"

/-- Environment in which executing the statement `BAD` fails. -/
def envExecFail : Env :=
  { envBase with execErr := fun t => if t = "BAD" then some "syntax error" else none }

/-- Concrete builder registering literal statements and files. -/
def bSeed : MockBuilder := (bW.SQLStmts ["INSERT 1; INSERT 2"]).SQLFiles envFiles ["f1", "f2"]

/-- Concrete builder whose seeding hits a failing statement. -/
def bFail : MockBuilder := bW.SQLStmts ["OK1; BAD; NEVER"]

/-- Environment in which only the file `h` is missing. -/
def envMixed : Env := { envBase with fileExists := fun g => g != "h" }

/-! ### Lemmas about statement execution and seeding -/

/-- Executing a concatenation: on a failure in the first part the second part
is never reached; otherwise the traces concatenate. -/
theorem executeSQLStatements_append (env : Env) (l1 l2 : List String) :
    executeSQLStatements env (l1 ++ l2) =
      if (executeSQLStatements env l1).2 = none then
        ((executeSQLStatements env l1).1 ++ (executeSQLStatements env l2).1,
         (executeSQLStatements env l2).2)
      else executeSQLStatements env l1 := by
  induction l1 with
  | nil => simp [executeSQLStatements]
  | cons s rest ih =>
    simp only [List.cons_append, executeSQLStatements]
    cases h : env.execErr s with
    | some e => simp
    | none =>
      rw [show rest.append l2 = rest ++ l2 from rfl, ih]
      cases h2 : (executeSQLStatements env rest).2 with
      | none => simp [h2]
      | some e => simp [h2]

/-- When every statement succeeds, all are executed and no error results. -/
theorem executeSQLStatements_ok (env : Env) (l : List String)
    (h : ∀ t ∈ l, env.execErr t = none) :
    executeSQLStatements env l = (l, none) := by
  induction l with
  | nil => rfl
  | cons s rest ih =>
    have hs : env.execErr s = none := h s (by simp)
    simp [executeSQLStatements, hs, ih fun t ht => h t (by simp [ht])]

/-- When the trace ends without error, every statement was executed. -/
theorem executeSQLStatements_none_fst (env : Env) (l : List String)
    (h : (executeSQLStatements env l).2 = none) :
    (executeSQLStatements env l).1 = l := by
  induction l with
  | nil => rfl
  | cons s rest ih =>
    simp only [executeSQLStatements] at h ⊢
    cases hs : env.execErr s with
    | some e => simp [hs] at h
    | none =>
      simp only [hs] at h ⊢
      simp [ih h]

/-- Execution stops at the first failing statement: everything before it runs,
it runs and fails, and nothing after it runs. -/
theorem executeSQLStatements_fail (env : Env) (pre post : List String) (s m : String)
    (hpre : ∀ t ∈ pre, env.execErr t = none) (hs : env.execErr s = some m) :
    executeSQLStatements env (pre ++ s :: post) =
      (pre ++ [s], some ("failed to exec sql stmt '" ++ s ++ "': " ++ m)) := by
  induction pre with
  | nil => simp [executeSQLStatements, hs]
  | cons t rest ih =>
    have ht : env.execErr t = none := hpre t (by simp)
    simp [executeSQLStatements, ht, ih fun u hu => hpre u (by simp [hu])]

/-- The literal-statement loop equals one execution run over the
concatenation of the splits, in registration order. -/
theorem runStmts_flat (env : Env) (ss : List String) :
    runStmts env ss = executeSQLStatements env (ss.flatMap naiveSplit) := by
  induction ss with
  | nil => rfl
  | cons s rest ih =>
    simp only [runStmts, splitSQLStatements, List.flatMap_cons,
      executeSQLStatements_append, ih]
    cases h : (executeSQLStatements env (naiveSplit s)).2 with
    | none => simp [h]
    | some e =>
      simp [h]
      rw [← h]

/-- The file loop equals one execution run over the concatenation of the
splits of the file contents, in registration order, provided every file
read succeeds. -/
theorem runFiles_flat (env : Env) (contents : String → String) (fs : List String)
    (hc : ∀ f ∈ fs, env.fileContents f = Except.ok (contents f)) :
    runFiles env fs = executeSQLStatements env (fs.flatMap fun f => naiveSplit (contents f)) := by
  induction fs with
  | nil => rfl
  | cons f rest ih =>
    have hf : env.fileContents f = Except.ok (contents f) := hc f (by simp)
    simp only [runFiles, splitSQLFile, hf, splitSQLStatements, List.flatMap_cons,
      executeSQLStatements_append, ih fun g hg => hc g (by simp [hg])]
    cases h : (executeSQLStatements env (naiveSplit (contents f))).2 with
    | none => simp [h]
    | some e =>
      simp [h]
      rw [← h]

/-- `initWithStmts` on a clean builder: records the loop's error and reports
its trace (the empty-list guard coincides with running the empty loop). -/
theorem initWithStmts_eq (env : Env) (b : MockBuilder) (hb : b.err = none) :
    b.initWithStmts env =
      ({ b with err := (runStmts env b.sqlStmts).2 }, (runStmts env b.sqlStmts).1) := by
  obtain ⟨dn, pt, sv, er, st, ss, fs⟩ := b
  simp only at hb
  subst hb
  unfold MockBuilder.initWithStmts
  rcases ss with _ | ⟨s, rest⟩
  · simp [runStmts]
  · simp

/-- `initWithStmts` with the sticky error set is skipped. -/
theorem initWithStmts_err (env : Env) (b : MockBuilder) (e : String) (hb : b.err = some e) :
    b.initWithStmts env = (b, []) := by
  unfold MockBuilder.initWithStmts
  simp [hb]

/-- `initWithFiles` on a clean builder: records the loop's error and reports
its trace. -/
theorem initWithFiles_eq (env : Env) (b : MockBuilder) (hb : b.err = none) :
    b.initWithFiles env =
      ({ b with err := (runFiles env b.sqlFiles).2 }, (runFiles env b.sqlFiles).1) := by
  obtain ⟨dn, pt, sv, er, st, ss, fs⟩ := b
  simp only at hb
  subst hb
  unfold MockBuilder.initWithFiles
  rcases fs with _ | ⟨f, rest⟩
  · simp [runFiles]
  · simp

/-- `initWithFiles` with the sticky error set is skipped. -/
theorem initWithFiles_err (env : Env) (b : MockBuilder) (e : String) (hb : b.err = some e) :
    b.initWithFiles env = (b, []) := by
  unfold MockBuilder.initWithFiles
  simp [hb]

/-- The seeding phase on a clean builder equals one execution run over all
literal-derived statements followed by all file-derived statements, provided
every registered file reads successfully. -/
theorem seed_flat (env : Env) (b : MockBuilder) (contents : String → String)
    (hb : b.err = none)
    (hc : ∀ f ∈ b.sqlFiles, env.fileContents f = Except.ok (contents f)) :
    b.seed env =
      ({ b with err := (executeSQLStatements env
            (b.sqlStmts.flatMap naiveSplit
              ++ b.sqlFiles.flatMap fun f => naiveSplit (contents f))).2 },
       (executeSQLStatements env
            (b.sqlStmts.flatMap naiveSplit
              ++ b.sqlFiles.flatMap fun f => naiveSplit (contents f))).1) := by
  obtain ⟨dn, pt, sv, er, st, ss, fs⟩ := b
  simp only at hb hc
  subst hb
  unfold MockBuilder.seed
  rw [initWithStmts_eq env _ rfl]
  simp only
  rw [runStmts_flat, executeSQLStatements_append]
  cases h1 : (executeSQLStatements env (ss.flatMap naiveSplit)).2 with
  | some e =>
    rw [initWithFiles_err env _ e (by simp [h1])]
    simp [h1]
  | none =>
    rw [initWithFiles_eq env _ (by simp [h1])]
    simp only [h1, if_pos]
    rw [runFiles_flat env contents fs hc]

/-- `initWithStmts` changes at most the sticky error. -/
theorem initWithStmts_shape (env : Env) (b : MockBuilder) :
    ∃ o, (b.initWithStmts env).1 = { b with err := o } := by
  unfold MockBuilder.initWithStmts
  split
  · exact ⟨b.err, by obtain ⟨_, _, _, _, _, _, _⟩ := b; rfl⟩
  · exact ⟨(runStmts env b.sqlStmts).2, rfl⟩

/-- `initWithFiles` changes at most the sticky error. -/
theorem initWithFiles_shape (env : Env) (b : MockBuilder) :
    ∃ o, (b.initWithFiles env).1 = { b with err := o } := by
  unfold MockBuilder.initWithFiles
  split
  · exact ⟨b.err, by obtain ⟨_, _, _, _, _, _, _⟩ := b; rfl⟩
  · exact ⟨(runFiles env b.sqlFiles).2, rfl⟩

/-- The whole seeding phase changes at most the sticky error. -/
theorem seed_shape (env : Env) (b : MockBuilder) :
    ∃ o, (b.seed env).1 = { b with err := o } := by
  obtain ⟨o2, h2⟩ := initWithFiles_shape env (b.initWithStmts env).1
  obtain ⟨o1, h1⟩ := initWithStmts_shape env b
  refine ⟨o2, ?_⟩
  show ((b.initWithStmts env).1.initWithFiles env).1 = { b with err := o2 }
  rw [h2, h1]

/-! ### Reduction lemmas for `Build` -/

/-- `Build` with the sticky error set: immediate return of that error. -/
theorem Build_err (env : Env) (b : MockBuilder) (e : String) (hb : b.err = some e) :
    b.Build env = (b, BuildOutcome.err e, []) := by
  unfold MockBuilder.Build
  simp [hb]

/-- `Build` on an already-started builder (clean error): immediate failure. -/
theorem Build_started (env : Env) (b : MockBuilder) (hb : b.err = none) (hs : b.started = true) :
    b.Build env = (b, BuildOutcome.err "mysql server already started", []) := by
  unfold MockBuilder.Build
  simp [hb, hs]

/-- `Build` when the port probe fails: the probe error is recorded and
returned, after the started flag was set. -/
theorem Build_portFail (env : Env) (b : MockBuilder) (e : String)
    (hb : b.err = none) (hs : b.started = false) (hp : b.port = 0)
    (hfp : env.freePort = Except.error e) :
    b.Build env =
      ({ b with started := true, err := some e }, BuildOutcome.err e, [Effect.probePort]) := by
  unfold MockBuilder.Build MockBuilder.resolvePort
  simp [hb, hs, hp, hfp]

/-- `Build` on a clean, unstarted builder either fails the port probe or
resolves a port `p` (the probed one, or the configured nonzero one) and then
behaves as `afterPort`. -/
theorem Build_resolved (env : Env) (b : MockBuilder) (hb : b.err = none)
    (hs : b.started = false) :
    (∃ e, b.port = 0 ∧ env.freePort = Except.error e ∧
      b.Build env =
        ({ b with started := true, err := some e }, BuildOutcome.err e, [Effect.probePort]))
    ∨ (∃ p tr0,
        ((b.port = 0 ∧ env.freePort = Except.ok p
            ∧ tr0 = [Effect.probePort, Effect.closeListener])
          ∨ (b.port ≠ 0 ∧ p = b.port ∧ tr0 = ([] : List Effect)))
        ∧ b.Build env = afterPort env b p tr0) := by
  by_cases hp : b.port = 0
  · cases hfp : env.freePort with
    | error e =>
      exact Or.inl ⟨e, hp, rfl, Build_portFail env b e hb hs hp hfp⟩
    | ok p =>
      refine Or.inr ⟨p, _, Or.inl ⟨hp, rfl, rfl⟩, ?_⟩
      unfold MockBuilder.Build MockBuilder.resolvePort MockBuilder.initServer
        createMySQLServer createMySQLClient afterPort
      cases hcs : env.createServerErr with
      | some e => simp [hb, hs, hp, hfp, hcs]
      | none =>
        cases hst : env.startErr with
        | some e => simp [hb, hs, hp, hfp, hcs, hst]
        | none =>
          cases hcl : env.clientErr with
          | some e => simp [hb, hs, hp, hfp, hcs, hst, hcl]
          | none => simp [hb, hs, hp, hfp, hcs, hst, hcl]
  · refine Or.inr ⟨b.port, [], Or.inr ⟨hp, rfl, rfl⟩, ?_⟩
    unfold MockBuilder.Build MockBuilder.resolvePort MockBuilder.initServer
      createMySQLServer createMySQLClient afterPort
    cases hcs : env.createServerErr with
    | some e => simp [hb, hs, hp, hcs]
    | none =>
      cases hst : env.startErr with
      | some e => simp [hb, hs, hp, hcs, hst]
      | none =>
        cases hcl : env.clientErr with
        | some e => simp [hb, hs, hp, hcs, hst, hcl]
        | none => simp [hb, hs, hp, hcs, hst, hcl]

/-! ### Further helper lemmas -/

/-- `findMissing` returns the first file reported missing. -/
theorem findMissing_first (ex : String → Bool) (pre post : List String) (f : String)
    (hpre : ∀ g ∈ pre, ex g = true) (hf : ex f = false) :
    findMissing ex (pre ++ f :: post) = some f := by
  induction pre with
  | nil => simp [findMissing, hf]
  | cons g rest ih =>
    have hg := hpre g (by simp)
    simp [findMissing, hg, ih fun u hu => hpre u (by simp [hu])]

/-- `execTrace` distributes over appending. -/
theorem execTrace_append (t1 t2 : List Effect) :
    execTrace (t1 ++ t2) = execTrace t1 ++ execTrace t2 := by
  unfold execTrace
  exact List.filterMap_append t1 t2 _

/-- `execTrace` recovers the statements of a pure execution trace. -/
theorem execTrace_map (l : List String) :
    execTrace (l.map Effect.execStmt) = l := by
  induction l with
  | nil => rfl
  | cons s rest ih =>
    simp only [List.map_cons, execTrace, List.filterMap_cons] at ih ⊢
    rw [ih]

/-- `afterPort` changes only the started flag, the port, the server handle and
the sticky error. -/
theorem afterPort_fst_shape (env : Env) (b : MockBuilder) (p : Int) (tr0 : List Effect) :
    ∃ sv o, (afterPort env b p tr0).1 =
      { b with started := true, port := p, server := sv, err := o } := by
  unfold afterPort
  cases env.createServerErr with
  | some e => exact ⟨none, some ("failed to create server: " ++ e), rfl⟩
  | none =>
    cases env.startErr with
    | some e => exact ⟨some { port := p }, b.err, rfl⟩
    | none =>
      cases env.clientErr with
      | some e => exact ⟨some { port := p }, some ("failed to create sql client: " ++ e), rfl⟩
      | none =>
        obtain ⟨o, ho⟩ :=
          seed_shape env { b with started := true, port := p, server := some { port := p } }
        exact ⟨some { port := p }, o, by simp only; rw [ho]⟩

/-- `Build` past its two guards changes only the started flag, the port, the
server handle and the sticky error. -/
theorem Build_fst_shape (env : Env) (b : MockBuilder) (hb : b.err = none)
    (hs : b.started = false) :
    ∃ pp sv o, (b.Build env).1 = { b with started := true, port := pp, server := sv, err := o } := by
  rcases Build_resolved env b hb hs with ⟨e, hp, hfp, heq⟩ | ⟨p, tr0, hres, heq⟩
  · exact ⟨b.port, b.server, some e, by rw [heq]⟩
  · obtain ⟨sv, o, ho⟩ := afterPort_fst_shape env b p tr0
    exact ⟨p, sv, o, by rw [heq, ho]⟩

/-- An `ok` outcome of `afterPort` forces all three server-side steps to have
succeeded. -/
theorem afterPort_ok_env (env : Env) (b : MockBuilder) (p : Int) (tr0 : List Effect)
    (hok : (afterPort env b p tr0).2.1 = BuildOutcome.ok) :
    env.createServerErr = none ∧ env.startErr = none ∧ env.clientErr = none := by
  unfold afterPort at hok
  cases hcs : env.createServerErr with
  | some e => rw [hcs] at hok; exact absurd hok (by simp)
  | none =>
    cases hst : env.startErr with
    | some e => rw [hcs, hst] at hok; exact absurd hok (by simp)
    | none =>
      cases hcl : env.clientErr with
      | some e => rw [hcs, hst, hcl] at hok; exact absurd hok (by simp)
      | none => exact ⟨rfl, rfl, rfl⟩

/-- `afterPort` when server construction, start and client connection all
succeed: it reduces to the seeding phase. -/
theorem afterPort_clean (env : Env) (b : MockBuilder) (p : Int) (tr0 : List Effect)
    (hsv : env.createServerErr = none) (hst : env.startErr = none)
    (hcl : env.clientErr = none) :
    afterPort env b p tr0 =
      ((({ b with started := true, port := p, server := some { port := p } } : MockBuilder).seed env).1,
       (match (({ b with started := true, port := p, server := some { port := p } } : MockBuilder).seed env).1.err with
        | some e => BuildOutcome.err e
        | none => BuildOutcome.ok),
       tr0 ++ [Effect.initServer b.dbName p, Effect.startServer, Effect.connectClient p b.dbName]
         ++ (({ b with started := true, port := p, server := some { port := p } } : MockBuilder).seed env).2.map Effect.execStmt) := by
  unfold afterPort
  rw [hsv, hst, hcl]

/-- First component of `afterPort_clean`. -/
theorem afterPort_clean_fst (env : Env) (b : MockBuilder) (p : Int) (tr0 : List Effect)
    (hsv : env.createServerErr = none) (hst : env.startErr = none)
    (hcl : env.clientErr = none) :
    (afterPort env b p tr0).1 =
      ((({ b with started := true, port := p, server := some { port := p } } : MockBuilder).seed
        env).1) := by
  rw [afterPort_clean env b p tr0 hsv hst hcl]

/-- Outcome component of `afterPort_clean`. -/
theorem afterPort_clean_outcome (env : Env) (b : MockBuilder) (p : Int) (tr0 : List Effect)
    (hsv : env.createServerErr = none) (hst : env.startErr = none)
    (hcl : env.clientErr = none) :
    (afterPort env b p tr0).2.1 =
      (match (({ b with started := true, port := p, server := some { port := p } } :
          MockBuilder).seed env).1.err with
       | some e => BuildOutcome.err e
       | none => BuildOutcome.ok) := by
  rw [afterPort_clean env b p tr0 hsv hst hcl]

/-- Trace component of `afterPort_clean`. -/
theorem afterPort_clean_trace (env : Env) (b : MockBuilder) (p : Int) (tr0 : List Effect)
    (hsv : env.createServerErr = none) (hst : env.startErr = none)
    (hcl : env.clientErr = none) :
    (afterPort env b p tr0).2.2 =
      tr0 ++ [Effect.initServer b.dbName p, Effect.startServer, Effect.connectClient p b.dbName]
        ++ (({ b with started := true, port := p, server := some { port := p } } :
          MockBuilder).seed env).2.map Effect.execStmt := by
  rw [afterPort_clean env b p tr0 hsv hst hcl]

/-- An `err` outcome of `afterPort` is recorded in the sticky error field. -/
theorem afterPort_err_sticky (env : Env) (b : MockBuilder) (p : Int) (tr0 : List Effect)
    (e : String) (he : (afterPort env b p tr0).2.1 = BuildOutcome.err e) :
    (afterPort env b p tr0).1.err = some e := by
  cases hcs : env.createServerErr with
  | some e2 =>
    unfold afterPort at he ⊢
    rw [hcs] at he ⊢
    have h2 : BuildOutcome.err ("failed to create server: " ++ e2) = BuildOutcome.err e := he
    injection h2 with h
    simp [h]
  | none =>
    cases hst : env.startErr with
    | some e2 =>
      unfold afterPort at he
      rw [hcs, hst] at he
      exact absurd (show BuildOutcome.panicked e2 = BuildOutcome.err e from he) (by simp)
    | none =>
      cases hcl : env.clientErr with
      | some e2 =>
        unfold afterPort at he ⊢
        rw [hcs, hst, hcl] at he ⊢
        have h2 : BuildOutcome.err ("failed to create sql client: " ++ e2) = BuildOutcome.err e := he
        injection h2 with h
        simp [h]
      | none =>
        rw [afterPort_clean env b p tr0 hcs hst hcl] at he ⊢
        cases hse : (MockBuilder.seed env
            { b with started := true, port := p, server := some { port := p } }).1.err with
        | some e2 =>
          rw [hse] at he
          have h2 : BuildOutcome.err e2 = BuildOutcome.err e := he
          injection h2 with h
          rw [h]
        | none =>
          rw [hse] at he
          exact absurd (show BuildOutcome.ok = BuildOutcome.err e from he) (by simp)

/-- An `err` outcome of a `Build` that passed both guards is recorded in the
sticky error field. -/
theorem Build_err_sticky (env : Env) (b : MockBuilder) (hb : b.err = none)
    (hs : b.started = false) (e : String)
    (he : (b.Build env).2.1 = BuildOutcome.err e) :
    (b.Build env).1.err = some e := by
  rcases Build_resolved env b hb hs with ⟨e2, hp, hfp, heq⟩ | ⟨p, tr0, hres, heq⟩
  · rw [heq] at he ⊢
    have h2 : BuildOutcome.err e2 = BuildOutcome.err e := he
    injection h2 with h
    simp [h]
  · rw [heq] at he ⊢
    exact afterPort_err_sticky env b p tr0 e he

/-! ### Claim theorems -/

/-- C1 counterexample: `cexB` has its sticky error set to `some "boom"`, yet
the configuration calls are not no-ops — `Port 7` changes the recorded port
from 0 to 7, `SQLStmts` appends to the statement list, and `SQLFiles` on a
missing path overwrites the sticky error — refuting the claim that every
subsequent configuration call leaves the recorded configuration and the sticky
error itself unchanged. -/
theorem C1_cex :
    cexB.err = some "boom"
    ∧ (cexB.Port 7).port = 7 ∧ cexB.port = 0
    ∧ (cexB.SQLStmts ["s"]).sqlStmts = ["s"] ∧ cexB.sqlStmts = []
    ∧ (cexB.SQLFiles envNoFile ["f"]).err = some "sql file f not exist" := by
  decide

/-- C1 (amended): once the sticky error is non-empty, `Build` returns that
same error unchanged and performs nothing; but the configuration calls still
mutate the recorded configuration — `Port` overwrites the port, `SQLStmts`
appends, and `SQLFiles` appends the batch when every path exists (leaving the
error unchanged), while a batch with a missing path overwrites the sticky
error with a new registration error. None of the configuration calls returns
the error; each returns the builder. -/
theorem C1_thm (env : Env) (b : MockBuilder) (e : String) (p : Int)
    (ss fs : List String) (hb : b.err = some e) :
    b.Port p = { b with port := p }
    ∧ b.SQLStmts ss = { b with sqlStmts := b.sqlStmts ++ ss }
    ∧ (findMissing env.fileExists fs = none →
        b.SQLFiles env fs = { b with sqlFiles := b.sqlFiles ++ fs })
    ∧ (∀ f, findMissing env.fileExists fs = some f →
        b.SQLFiles env fs = { b with err := some ("sql file " ++ f ++ " not exist") })
    ∧ b.Build env = (b, BuildOutcome.err e, []) := by
  refine ⟨rfl, rfl, ?_, ?_, Build_err env b e hb⟩
  · intro h
    unfold MockBuilder.SQLFiles
    rw [h]
  · intro f h
    unfold MockBuilder.SQLFiles
    rw [h]

/-- C1 witness: the amended claim instantiated at the concrete builder `cexB`
whose sticky error is `some "boom"`. -/
theorem C1_witness :
    cexB.err = some "boom"
    ∧ (cexB.Port 7 = { cexB with port := 7 }
      ∧ cexB.SQLStmts ["s"] = { cexB with sqlStmts := cexB.sqlStmts ++ ["s"] }
      ∧ (findMissing envBase.fileExists ["f"] = none →
          cexB.SQLFiles envBase ["f"] = { cexB with sqlFiles := cexB.sqlFiles ++ ["f"] })
      ∧ (∀ f, findMissing envBase.fileExists ["f"] = some f →
          cexB.SQLFiles envBase ["f"] = { cexB with err := some ("sql file " ++ f ++ " not exist") })
      ∧ cexB.Build envBase = (cexB, BuildOutcome.err "boom", [])) :=
  ⟨rfl, C1_thm envBase cexB "boom" 7 ["s"] ["f"] rfl⟩

/-- C2: the started flag transitions from unset to set at most once — the
first `Build` on a clean unstarted builder sets it, and any `Build` on a
builder whose flag is already set returns an error, changes nothing, and
performs none of the port-probe, server-initialization, server-start,
client-connection or seeding steps (its effect trace is empty). -/
theorem C2_thm (env : Env) (b : MockBuilder) :
    (b.err = none → b.started = false → (b.Build env).1.started = true)
    ∧ (b.started = true →
        (b.Build env).1 = b ∧ (b.Build env).2.2 = []
          ∧ ∃ e, (b.Build env).2.1 = BuildOutcome.err e) := by
  constructor
  · intro hb hs
    obtain ⟨pp, sv, o, ho⟩ := Build_fst_shape env b hb hs
    rw [ho]
  · intro hs
    cases hb : b.err with
    | some e =>
      rw [Build_err env b e hb]
      exact ⟨rfl, rfl, e, rfl⟩
    | none =>
      rw [Build_started env b hb hs]
      exact ⟨rfl, rfl, _, rfl⟩

/-- C2 witness: the first `Build` on the fresh builder `bW` sets the flag; a
`Build` on the already-started `startedB` errors with an empty trace. -/
theorem C2_witness :
    ((bW.Build envBase).1.started = true)
    ∧ ((startedB.Build envBase).1 = startedB ∧ (startedB.Build envBase).2.2 = []
        ∧ ∃ e, (startedB.Build envBase).2.1 = BuildOutcome.err e) :=
  ⟨(C2_thm envBase bW).1 rfl rfl, (C2_thm envBase startedB).2 rfl⟩

/-- C3: registering a batch containing a missing path sets the sticky error
to the registration error naming the first missing file, and a subsequent
`Build` returns exactly that error, leaves the builder (in particular the
started flag) unchanged, and performs none of the port-probe, server-start or
seeding steps (its effect trace is empty). -/
theorem C3_thm (env : Env) (b : MockBuilder) (f : String) (fs : List String)
    (hmiss : findMissing env.fileExists fs = some f) :
    (b.SQLFiles env fs).err = some ("sql file " ++ f ++ " not exist")
    ∧ (b.SQLFiles env fs).started = b.started
    ∧ (b.SQLFiles env fs).Build env =
        (b.SQLFiles env fs, BuildOutcome.err ("sql file " ++ f ++ " not exist"), []) := by
  have h1 : b.SQLFiles env fs = { b with err := some ("sql file " ++ f ++ " not exist") } := by
    unfold MockBuilder.SQLFiles
    rw [hmiss]
  exact ⟨by rw [h1], by rw [h1], Build_err env _ _ (by rw [h1])⟩

/-- C3 witness: registering the missing file `f` on the fresh builder `bW` in
an environment without files. -/
theorem C3_witness :
    findMissing envNoFile.fileExists ["f"] = some "f"
    ∧ ((bW.SQLFiles envNoFile ["f"]).err = some ("sql file " ++ "f" ++ " not exist")
      ∧ (bW.SQLFiles envNoFile ["f"]).started = bW.started
      ∧ (bW.SQLFiles envNoFile ["f"]).Build envNoFile =
          (bW.SQLFiles envNoFile ["f"],
           BuildOutcome.err ("sql file " ++ "f" ++ " not exist"), [])) :=
  ⟨rfl, C3_thm envNoFile bW "f" ["f"] rfl⟩

/-- C9: a single `SQLFiles` call is atomic over its batch — when some path of
the batch is missing, no path of the batch (not even the existing paths listed
before the missing one) is registered, the file list is unchanged, and the
sticky error names the first missing path. -/
theorem C9_thm (env : Env) (b : MockBuilder) (pre post : List String) (f : String)
    (hpre : ∀ g ∈ pre, env.fileExists g = true) (hf : env.fileExists f = false) :
    (b.SQLFiles env (pre ++ f :: post)).sqlFiles = b.sqlFiles
    ∧ (b.SQLFiles env (pre ++ f :: post)).err = some ("sql file " ++ f ++ " not exist") := by
  have h1 := findMissing_first env.fileExists pre post f hpre hf
  unfold MockBuilder.SQLFiles
  rw [h1]
  exact ⟨rfl, rfl⟩

/-- C9 witness: a batch whose first path `g` exists and second path `h` is
missing registers nothing and records the error naming `h`. -/
theorem C9_witness :
    (∀ g ∈ ["g"], envMixed.fileExists g = true)
    ∧ envMixed.fileExists "h" = false
    ∧ ((bW.SQLFiles envMixed (["g"] ++ "h" :: ["k"])).sqlFiles = bW.sqlFiles
      ∧ (bW.SQLFiles envMixed (["g"] ++ "h" :: ["k"])).err
          = some ("sql file " ++ "h" ++ " not exist")) :=
  ⟨by decide, by decide, C9_thm envMixed bW ["g"] ["k"] "h" (by decide) (by decide)⟩

/-- C10: a `Build` that fails after setting the started flag records the
failure in the sticky error, and every subsequent `Build` call returns that
same recorded error — not the already-started error — because the
sticky-error check precedes the started-flag check; the repeated call changes
nothing and performs no effects. -/
theorem C10_thm (env : Env) (b : MockBuilder) (e : String)
    (hb : b.err = none) (hs : b.started = false)
    (he : (b.Build env).2.1 = BuildOutcome.err e) :
    (b.Build env).1.err = some e
    ∧ (b.Build env).1.started = true
    ∧ (b.Build env).1.Build env = ((b.Build env).1, BuildOutcome.err e, []) := by
  have h1 := Build_err_sticky env b hb hs e he
  obtain ⟨pp, sv, o, ho⟩ := Build_fst_shape env b hb hs
  exact ⟨h1, by rw [ho], Build_err env _ e h1⟩

/-- C10 witness: a `Build` whose client connection fails records the wrapped
client error, and the repeated `Build` returns it again. -/
theorem C10_witness :
    (bW.Build envClientFail).2.1 = BuildOutcome.err "failed to create sql client: conn refused"
    ∧ ((bW.Build envClientFail).1.err = some "failed to create sql client: conn refused"
      ∧ (bW.Build envClientFail).1.started = true
      ∧ (bW.Build envClientFail).1.Build envClientFail =
          ((bW.Build envClientFail).1,
           BuildOutcome.err "failed to create sql client: conn refused", [])) :=
  ⟨by decide, C10_thm envClientFail bW _ rfl rfl (by decide)⟩

/-- Whatever happens after port resolution, the effect trace continues with
the server-initialization effect. -/
theorem afterPort_trace_shape (env : Env) (b : MockBuilder) (p : Int) (tr0 : List Effect) :
    ∃ rest, (afterPort env b p tr0).2.2 = tr0 ++ Effect.initServer b.dbName p :: rest := by
  unfold afterPort
  cases env.createServerErr with
  | some e => exact ⟨[], rfl⟩
  | none =>
    cases env.startErr with
    | some e => exact ⟨[Effect.startServer], rfl⟩
    | none =>
      cases env.clientErr with
      | some e => exact ⟨[Effect.startServer, Effect.connectClient p b.dbName], rfl⟩
      | none =>
        refine ⟨Effect.startServer :: Effect.connectClient p b.dbName ::
          ((({ b with started := true, port := p, server := some { port := p } } : MockBuilder).seed
            env).2.map Effect.execStmt), ?_⟩
        simp

/-- C8: for a builder whose port was never set, `GetPort` before a successful
`Build` dereferences the nil server field and panics (a fresh builder has
port 0 and no server, and `GetPort` is the panic value `none`); `GetPort`
returns a port whenever the server has been assigned — in particular after a
successful `Build` — or an explicit nonzero port was configured. -/
theorem C8_thm (env : Env) (b : MockBuilder) (db : List String) (r : String) :
    ((Builder db r).port = 0 ∧ (Builder db r).server = none ∧ (Builder db r).GetPort = none)
    ∧ (b.port = 0 → b.server = none → b.GetPort = none)
    ∧ (b.port ≠ 0 → b.GetPort = some b.port)
    ∧ (∀ s, b.server = some s → b.GetPort ≠ none)
    ∧ (b.err = none → b.started = false → (b.Build env).2.1 = BuildOutcome.ok →
        (b.Build env).1.GetPort ≠ none) := by
  refine ⟨⟨rfl, rfl, rfl⟩, ?_, ?_, ?_, ?_⟩
  · intro h1 h2
    simp [MockBuilder.GetPort, h1, h2]
  · intro h
    simp [MockBuilder.GetPort, h]
  · intro s hsv
    simp only [MockBuilder.GetPort, hsv]
    split <;> simp
  · intro hb hs hok
    rcases Build_resolved env b hb hs with ⟨e, hp, hfp, heq⟩ | ⟨p, tr0, hres, heq⟩
    · rw [heq] at hok
      exact absurd (show BuildOutcome.err e = BuildOutcome.ok from hok) (by simp)
    · rw [heq] at hok ⊢
      obtain ⟨hcs, hst, hcl⟩ := afterPort_ok_env env b p tr0 hok
      rw [afterPort_clean env b p tr0 hcs hst hcl]
      obtain ⟨o, ho⟩ := seed_shape env
        { b with started := true, port := p, server := some { port := p } }
      rw [show ((({ b with started := true, port := p, server := some { port := p } } :
          MockBuilder).seed env).1,
          (match (({ b with started := true, port := p, server := some { port := p } } :
            MockBuilder).seed env).1.err with
           | some e => BuildOutcome.err e
           | none => BuildOutcome.ok),
          tr0 ++ [Effect.initServer b.dbName p, Effect.startServer,
            Effect.connectClient p b.dbName]
            ++ (({ b with started := true, port := p, server := some { port := p } } :
              MockBuilder).seed env).2.map Effect.execStmt).1
          = (({ b with started := true, port := p, server := some { port := p } } :
            MockBuilder).seed env).1 from rfl, ho]
      simp only [MockBuilder.GetPort]
      split <;> simp

/-- C8 witness: the fresh builder `bW` (no port configured) has `GetPort`
equal to the panic value, and after its successful `Build` in `envBase` the
accessor is safe. -/
theorem C8_witness :
    (bW.port = 0 ∧ bW.server = none ∧ bW.GetPort = none)
    ∧ (bW.Build envBase).2.1 = BuildOutcome.ok
    ∧ (bW.Build envBase).1.GetPort ≠ none :=
  ⟨⟨rfl, rfl, (C8_thm envBase bW [] "z").2.1 rfl rfl⟩, by decide,
   (C8_thm envBase bW [] "z").2.2.2.2 rfl rfl (by decide)⟩

/-- C7: a failure of the embedded server's asynchronous `Start` is escalated
to a process-fatal panic and is neither recorded in the sticky error nor
returned as an ordinary error, while every other failure class — prior sticky
configuration error, port acquisition, server construction, client
connection — is returned as an error from `Build`, and no outcome is a panic
unless `Start` failed. -/
theorem C7_thm (env : Env) (b : MockBuilder) :
    (b.err = none → b.started = false → (b.port = 0 → ∃ p, env.freePort = Except.ok p) →
      env.createServerErr = none → ∀ e, env.startErr = some e →
      (b.Build env).2.1 = BuildOutcome.panicked e ∧ (b.Build env).1.err = none)
    ∧ (env.startErr = none → ∀ e, (b.Build env).2.1 ≠ BuildOutcome.panicked e)
    ∧ (b.err = none → b.started = false → b.port = 0 → ∀ e, env.freePort = Except.error e →
      (b.Build env).2.1 = BuildOutcome.err e)
    ∧ (b.err = none → b.started = false → (b.port = 0 → ∃ p, env.freePort = Except.ok p) →
      ∀ e, env.createServerErr = some e →
      (b.Build env).2.1 = BuildOutcome.err ("failed to create server: " ++ e))
    ∧ (b.err = none → b.started = false → (b.port = 0 → ∃ p, env.freePort = Except.ok p) →
      env.createServerErr = none → env.startErr = none → ∀ e, env.clientErr = some e →
      (b.Build env).2.1 = BuildOutcome.err ("failed to create sql client: " ++ e))
    ∧ (∀ e, b.err = some e → (b.Build env).2.1 = BuildOutcome.err e) := by
  refine ⟨?_, ?_, ?_, ?_, ?_, ?_⟩
  · intro hb hs hfp hcs e hste
    rcases Build_resolved env b hb hs with ⟨e2, hp, hfp2, heq⟩ | ⟨p, tr0, hres, heq⟩
    · obtain ⟨q, hq⟩ := hfp hp
      cases hq.symm.trans hfp2
    · rw [heq]
      unfold afterPort
      rw [hcs, hste]
      exact ⟨rfl, hb⟩
  · intro hst e hpan
    cases hberr : b.err with
    | some e2 =>
      rw [Build_err env b e2 hberr] at hpan
      exact absurd (show BuildOutcome.err e2 = BuildOutcome.panicked e from hpan) (by simp)
    | none =>
      cases hbst : b.started with
      | true =>
        rw [Build_started env b hberr hbst] at hpan
        exact absurd
          (show BuildOutcome.err "mysql server already started" = BuildOutcome.panicked e
            from hpan) (by simp)
      | false =>
        rcases Build_resolved env b hberr hbst with ⟨e2, hp, hfp2, heq⟩ | ⟨p, tr0, hres, heq⟩
        · rw [heq] at hpan
          exact absurd (show BuildOutcome.err e2 = BuildOutcome.panicked e from hpan) (by simp)
        · rw [heq] at hpan
          cases hcs : env.createServerErr with
          | some e2 =>
            unfold afterPort at hpan
            rw [hcs] at hpan
            exact absurd
              (show BuildOutcome.err ("failed to create server: " ++ e2)
                = BuildOutcome.panicked e from hpan) (by simp)
          | none =>
            cases hcl : env.clientErr with
            | some e2 =>
              unfold afterPort at hpan
              rw [hcs, hst, hcl] at hpan
              exact absurd
                (show BuildOutcome.err ("failed to create sql client: " ++ e2)
                  = BuildOutcome.panicked e from hpan) (by simp)
            | none =>
              rw [afterPort_clean env b p tr0 hcs hst hcl] at hpan
              cases hse : (MockBuilder.seed env
                  { b with started := true, port := p, server := some { port := p } }).1.err with
              | some e2 =>
                rw [hse] at hpan
                exact absurd (show BuildOutcome.err e2 = BuildOutcome.panicked e from hpan)
                  (by simp)
              | none =>
                rw [hse] at hpan
                exact absurd (show BuildOutcome.ok = BuildOutcome.panicked e from hpan) (by simp)
  · intro hb hs hp e hfp
    rw [Build_portFail env b e hb hs hp hfp]
  · intro hb hs hfp e hcs
    rcases Build_resolved env b hb hs with ⟨e2, hp, hfp2, heq⟩ | ⟨p, tr0, hres, heq⟩
    · obtain ⟨q, hq⟩ := hfp hp
      cases hq.symm.trans hfp2
    · rw [heq]
      unfold afterPort
      rw [hcs]
  · intro hb hs hfp hcs hst e hcl
    rcases Build_resolved env b hb hs with ⟨e2, hp, hfp2, heq⟩ | ⟨p, tr0, hres, heq⟩
    · obtain ⟨q, hq⟩ := hfp hp
      cases hq.symm.trans hfp2
    · rw [heq]
      unfold afterPort
      rw [hcs, hst, hcl]
  · intro e hberr
    rw [Build_err env b e hberr]

/-- C7 witness: with `envStartFail` the `Build` of the fresh builder panics
with the start error and records nothing; with `envBase` no outcome is a
panic. -/
theorem C7_witness :
    ((bW.Build envStartFail).2.1 = BuildOutcome.panicked "crash"
      ∧ (bW.Build envStartFail).1.err = none)
    ∧ (∀ e, (bW.Build envBase).2.1 ≠ BuildOutcome.panicked e) :=
  ⟨(C7_thm envStartFail bW).1 rfl rfl (fun _ => ⟨19527, rfl⟩) rfl "crash" rfl,
   (C7_thm envBase bW).2.1 rfl⟩

/-- A `Build` whose server-side steps all succeed reduces, in outcome and
executed statements, to one execution run over all literal-derived statements
followed by all file-derived statements. -/
theorem Build_seed_traced (env : Env) (b : MockBuilder) (contents : String → String)
    (hb : b.err = none) (hs : b.started = false)
    (hfp : b.port = 0 → ∃ p, env.freePort = Except.ok p)
    (hcs : env.createServerErr = none) (hst : env.startErr = none)
    (hcl : env.clientErr = none)
    (hc : ∀ f ∈ b.sqlFiles, env.fileContents f = Except.ok (contents f)) :
    (b.Build env).2.1 =
      (match (executeSQLStatements env (b.sqlStmts.flatMap naiveSplit
          ++ b.sqlFiles.flatMap fun f => naiveSplit (contents f))).2 with
       | some e => BuildOutcome.err e
       | none => BuildOutcome.ok)
    ∧ execTrace (b.Build env).2.2 =
        (executeSQLStatements env (b.sqlStmts.flatMap naiveSplit
          ++ b.sqlFiles.flatMap fun f => naiveSplit (contents f))).1 := by
  rcases Build_resolved env b hb hs with ⟨e, hp2, hfp2, heq⟩ | ⟨p, tr0, hres, heq⟩
  · obtain ⟨q, hq⟩ := hfp hp2
    cases hq.symm.trans hfp2
  · rw [heq, afterPort_clean_outcome env b p tr0 hcs hst hcl,
      afterPort_clean_trace env b p tr0 hcs hst hcl]
    set b3 : MockBuilder :=
      { b with started := true, port := p, server := some { port := p } } with hb3def
    have hseed := seed_flat env b3 contents (by rw [hb3def]; exact hb) (by rw [hb3def]; exact hc)
    have hss : b3.sqlStmts = b.sqlStmts := by rw [hb3def]
    have hsf : b3.sqlFiles = b.sqlFiles := by rw [hb3def]
    rw [hss, hsf] at hseed
    constructor
    · rw [show (MockBuilder.seed env b3).1.err
          = (executeSQLStatements env (b.sqlStmts.flatMap naiveSplit
              ++ b.sqlFiles.flatMap fun f => naiveSplit (contents f))).2 from by rw [hseed]]
    · rw [execTrace_append, execTrace_append, execTrace_map,
        show (MockBuilder.seed env b3).2
          = (executeSQLStatements env (b.sqlStmts.flatMap naiveSplit
              ++ b.sqlFiles.flatMap fun f => naiveSplit (contents f))).1 from by rw [hseed]]
      rcases hres with ⟨hp2, hfp2, htr⟩ | ⟨hp2, hpv, htr⟩ <;> subst htr <;> rfl

/-- C4: a successful `Build` executes seed SQL in exactly this order — every
registered literal statement in registration order, each split into
individual statements; then every registered file in registration order, each
file's contents split into individual statements — so every literal-derived
statement executes before any file-derived statement. -/
theorem C4_thm (env : Env) (b : MockBuilder) (contents : String → String)
    (hb : b.err = none) (hs : b.started = false)
    (hc : ∀ f ∈ b.sqlFiles, env.fileContents f = Except.ok (contents f))
    (hok : (b.Build env).2.1 = BuildOutcome.ok) :
    execTrace (b.Build env).2.2 =
      b.sqlStmts.flatMap naiveSplit
        ++ b.sqlFiles.flatMap fun f => naiveSplit (contents f) := by
  rcases Build_resolved env b hb hs with ⟨e, hp2, hfp2, heq⟩ | ⟨p, tr0, hres, heq⟩
  · rw [heq] at hok
    exact absurd (show BuildOutcome.err e = BuildOutcome.ok from hok) (by simp)
  · have hfp : b.port = 0 → ∃ q, env.freePort = Except.ok q := by
      intro hp0
      rcases hres with ⟨_, hf2, _⟩ | ⟨hne, _, _⟩
      · exact ⟨p, hf2⟩
      · exact absurd hp0 hne
    obtain ⟨hcs, hst, hcl⟩ := afterPort_ok_env env b p tr0 (heq ▸ hok)
    obtain ⟨ho, htr⟩ := Build_seed_traced env b contents hb hs hfp hcs hst hcl hc
    rw [ho] at hok
    rw [htr]
    cases hE : (executeSQLStatements env (b.sqlStmts.flatMap naiveSplit
        ++ b.sqlFiles.flatMap fun f => naiveSplit (contents f))).2 with
    | some e2 =>
      rw [hE] at hok
      exact absurd (show BuildOutcome.err e2 = BuildOutcome.ok from hok) (by simp)
    | none =>
      exact executeSQLStatements_none_fst env _ hE

/-- C4 witness: the builder `bSeed` registers the literal
`INSERT 1; INSERT 2` and the files `f1` (contents `A1;A2`) and `f2`
(contents `B1`); its successful `Build` executes
`INSERT 1, INSERT 2, A1, A2, B1` in that order. -/
theorem C4_witness :
    (∀ f ∈ bSeed.sqlFiles, envFiles.fileContents f = Except.ok (contentsW f))
    ∧ (bSeed.Build envFiles).2.1 = BuildOutcome.ok
    ∧ execTrace (bSeed.Build envFiles).2.2 =
        bSeed.sqlStmts.flatMap naiveSplit
          ++ bSeed.sqlFiles.flatMap fun f => naiveSplit (contentsW f) :=
  ⟨by intro f hf; have h2 : f ∈ ["f1", "f2"] := hf; fin_cases h2 <;> rfl, by decide,
   C4_thm envFiles bSeed contentsW rfl rfl
     (by intro f hf; have h2 : f ∈ ["f1", "f2"] := hf; fin_cases h2 <;> rfl) (by decide)⟩

/-- C5: during seeding, the first statement whose execution fails aborts the
remaining sequence — the executed statements are exactly the successful
prefix followed by the failing statement, with nothing after it, literal- or
file-derived — and `Build` returns an error whose message includes the text
of the offending statement. -/
theorem C5_thm (env : Env) (b : MockBuilder) (contents : String → String)
    (pre post : List String) (s m : String)
    (hb : b.err = none) (hs : b.started = false)
    (hfp : b.port = 0 → ∃ p, env.freePort = Except.ok p)
    (hcs : env.createServerErr = none) (hst : env.startErr = none)
    (hcl : env.clientErr = none)
    (hc : ∀ f ∈ b.sqlFiles, env.fileContents f = Except.ok (contents f))
    (hplan : b.sqlStmts.flatMap naiveSplit
        ++ (b.sqlFiles.flatMap fun f => naiveSplit (contents f)) = pre ++ s :: post)
    (hpre : ∀ t ∈ pre, env.execErr t = none)
    (hfail : env.execErr s = some m) :
    (b.Build env).2.1 = BuildOutcome.err ("failed to exec sql stmt '" ++ s ++ "': " ++ m)
    ∧ execTrace (b.Build env).2.2 = pre ++ [s] := by
  obtain ⟨ho, htr⟩ := Build_seed_traced env b contents hb hs hfp hcs hst hcl hc
  have hEval : executeSQLStatements env (b.sqlStmts.flatMap naiveSplit
      ++ b.sqlFiles.flatMap fun f => naiveSplit (contents f))
      = (pre ++ [s], some ("failed to exec sql stmt '" ++ s ++ "': " ++ m)) := by
    rw [hplan]
    exact executeSQLStatements_fail env pre post s m hpre hfail
  constructor
  · rw [ho, hEval]
  · rw [htr, hEval]

/-- C5 witness: the builder `bFail` registers `OK1; BAD; NEVER`; in
`envExecFail` the statement `BAD` fails, so `OK1` and `BAD` are executed,
`NEVER` is not, and `Build` returns the error naming `BAD`. -/
theorem C5_witness :
    envExecFail.execErr "BAD" = some "syntax error"
    ∧ ((bFail.Build envExecFail).2.1
        = BuildOutcome.err ("failed to exec sql stmt '" ++ "BAD" ++ "': " ++ "syntax error")
      ∧ execTrace (bFail.Build envExecFail).2.2 = ["OK1"] ++ ["BAD"]) :=
  ⟨rfl, C5_thm envExecFail bFail (fun _ => "") ["OK1"] ["NEVER"] "BAD" "syntax error"
    rfl rfl (fun _ => ⟨19527, rfl⟩) rfl rfl rfl
    (by intro f hf; exact absurd hf (List.not_mem_nil f))
    (by decide) (by decide) rfl⟩

/-- C6: for a builder never given an explicit port, `Build` probes the OS for
a free port, closes the probe listener before the port is used (the close
effect precedes the server-initialization effect in the trace), records the
probed port in the builder, and after a successful `Build` the server was
configured to bind exactly that port and `GetPort` returns it. -/
theorem C6_thm (env : Env) (b : MockBuilder) (p : Int)
    (hb : b.err = none) (hs : b.started = false) (hp : b.port = 0)
    (hfp : env.freePort = Except.ok p) (hpnz : p ≠ 0) :
    (b.Build env).1.port = p
    ∧ (∃ rest, (b.Build env).2.2 =
        Effect.probePort :: Effect.closeListener :: Effect.initServer b.dbName p :: rest)
    ∧ ((b.Build env).2.1 = BuildOutcome.ok →
        (b.Build env).1.server = some { port := p }
          ∧ (b.Build env).1.GetPort = some p) := by
  rcases Build_resolved env b hb hs with ⟨e, hp2, hfp2, heq⟩ | ⟨p2, tr0, hres, heq⟩
  · rw [hfp] at hfp2
    cases hfp2
  · rcases hres with ⟨hp2, hfp2, htr⟩ | ⟨hp2, hpv, htr⟩
    · rw [hfp] at hfp2
      injection hfp2 with hpp
      subst hpp
      subst htr
      refine ⟨?_, ?_, ?_⟩
      · obtain ⟨sv, o, ho⟩ :=
          afterPort_fst_shape env b p [Effect.probePort, Effect.closeListener]
        rw [heq, ho]
      · obtain ⟨rest, hrest⟩ :=
          afterPort_trace_shape env b p [Effect.probePort, Effect.closeListener]
        rw [heq, hrest]
        exact ⟨rest, rfl⟩
      · intro hok
        rw [heq] at hok ⊢
        obtain ⟨hcs, hst, hcl⟩ :=
          afterPort_ok_env env b p [Effect.probePort, Effect.closeListener] hok
        rw [afterPort_clean_fst env b p [Effect.probePort, Effect.closeListener] hcs hst hcl]
        obtain ⟨o, ho⟩ := seed_shape env
          { b with started := true, port := p, server := some { port := p } }
        rw [ho]
        refine ⟨rfl, ?_⟩
        simp [MockBuilder.GetPort, hpnz]
    · exact absurd hp hp2

/-- C6 witness: the fresh builder `bW` built in `envBase` (probe finds port
19527) records port 19527, closes the listener before initializing the
server, and `GetPort` returns 19527 after the successful build. -/
theorem C6_witness :
    ((bW.Build envBase).1.port = 19527)
    ∧ (∃ rest, (bW.Build envBase).2.2 =
        Effect.probePort :: Effect.closeListener :: Effect.initServer bW.dbName 19527 :: rest)
    ∧ ((bW.Build envBase).2.1 = BuildOutcome.ok →
        (bW.Build envBase).1.server = some { port := 19527 }
          ∧ (bW.Build envBase).1.GetPort = some 19527) :=
  C6_thm envBase bW 19527 rfl rfl rfl rfl (by decide)

end Mtest
